import Mathlib

/-!
Verification of the StockSightAI pattern/indicator extraction and
suggestion pipeline.

Python floats are embedded as rationals (ℚ), Python ints as ℤ/ℕ.
OpenCV / scipy / numpy primitives are external collaborators: functions
that consume their results are parametrised by those results (line
segments, contours, pixel counts, uniform random draws), and the
repository's own logic over them is translated faithfully.
-/

set_option maxRecDepth 8000

namespace StockSight

/-- Character-list version of `List.isPrefixOf`, kept structural so the
kernel evaluates it. -/
def startsWithChars : List Char → List Char → Bool
  | [], _ => true
  | _ :: _, [] => false
  | a :: as, b :: bs => a == b && startsWithChars as bs

/-- `containsChars n h` decides whether `n` occurs contiguously in `h`. -/
def containsChars (n : List Char) : List Char → Bool
  | [] => n.isEmpty
  | b :: bs => startsWithChars n (b :: bs) || containsChars n bs

/-- Python's `in` operator on strings: substring containment. -/
def pyIn (needle hay : String) : Bool :=
  containsChars needle.toList hay.toList

/-- Python's `int()` applied to a float: truncation toward zero. -/
def pyInt (x : ℚ) : ℤ :=
  if 0 ≤ x then ⌊x⌋ else ⌈x⌉

/-- Python's `round()` to an integer: round half to even (banker's rounding). -/
def pyRoundHalfEven (x : ℚ) : ℤ :=
  let f := ⌊x⌋
  let frac := x - f
  if frac < 1/2 then f
  else if 1/2 < frac then f + 1
  else if f % 2 = 0 then f else f + 1

/-- Python's `round(x, 2)`: round to 2 decimal places (half to even). -/
def round2 (x : ℚ) : ℚ :=
  (pyRoundHalfEven (100 * x) : ℚ) / 100

/-! ## Data model (spec §3), as produced by `technical_indicators.py` and
`pattern_recognition.py`: stringly-typed trend tags exactly as in the
source dictionaries. -/

/-- One moving-average entry: `{"value": .., "trend": ..}`. -/
structure MAEntry where
  value : ℚ
  trend : String
  deriving DecidableEq, Repr

/-- The five named moving averages produced by `extract_moving_averages`. -/
structure MovingAverages where
  sma_20 : MAEntry
  sma_50 : MAEntry
  sma_200 : MAEntry
  ema_12 : MAEntry
  ema_26 : MAEntry
  deriving DecidableEq, Repr

structure RsiData where
  value : ℚ
  trend : String
  deriving DecidableEq, Repr

structure MacdData where
  line : ℚ
  signal : ℚ
  histogram : ℚ
  trend : String
  deriving DecidableEq, Repr

structure StochData where
  k : ℚ
  d : ℚ
  trend : String
  deriving DecidableEq, Repr

structure Oscillators where
  rsi : RsiData
  macd : MacdData
  stochastic : StochData
  deriving DecidableEq, Repr

/-- Support/resistance record consumed by the aggregator.  Per the data
model (spec §3) and the invariant verified for `extract_support_resistance`,
each side has exactly 2 entries; `support = (support[0], support[1])`,
`resistance = (resistance[0], resistance[1])`, so Python's
`resistance[-1]` is `resistance.2`. -/
structure SupportResistance where
  support : ℚ × ℚ
  resistance : ℚ × ℚ
  deriving DecidableEq, Repr

/-- A detected pattern: `{"name": .., "description": .., "confidence": ..}`. -/
structure Pattern where
  name : String
  description : String
  confidence : ℚ
  deriving DecidableEq, Repr

structure IndicatorSet where
  moving_averages : MovingAverages
  oscillators : Oscillators
  support_resistance : SupportResistance
  deriving DecidableEq, Repr

structure AnalysisResult where
  patterns : List Pattern
  indicators : IndicatorSet
  deriving DecidableEq, Repr

/-- A trading suggestion as returned by `ai_suggestions.py`. -/
structure Suggestion where
  action : String
  rationale : String
  entry_point : ℚ
  stop_loss : ℚ
  take_profit : ℚ
  strength : ℤ
  deriving DecidableEq, Repr

/-! ## `generate_rule_based_suggestion` (src/ai_suggestions.py lines 141-271) -/

/-- The five MA entries in source iteration order. -/
def maList (m : MovingAverages) : List MAEntry :=
  [m.sma_20, m.sma_50, m.sma_200, m.ema_12, m.ema_26]

/-- Pattern-loop contribution to `(bullish_signals, bearish_signals)`
(source lines 190-202): an `elif` chain over substring tests on the
pattern name, weighting by confidence. -/
def patternScores (ps : List Pattern) : ℚ × ℚ :=
  ps.foldl (fun acc p =>
    if pyIn "Uptrend" p.name || pyIn "Bullish" p.name || pyIn "Double Bottom" p.name then
      (acc.1 + 2 * p.confidence, acc.2)
    else if pyIn "Downtrend" p.name || pyIn "Bearish" p.name || pyIn "Double Top" p.name then
      (acc.1, acc.2 + 2 * p.confidence)
    else if pyIn "Head and Shoulders" p.name then
      (acc.1, acc.2 + 2 * p.confidence)
    else if pyIn "Triangle" p.name then
      (if pyIn "Ascending" p.name then (acc.1 + p.confidence, acc.2)
       else if pyIn "Descending" p.name then (acc.1, acc.2 + p.confidence)
       else acc)
    else acc) (0, 0)

/-- `bullish_signals` (source lines 157-202): MA trends, RSI, MACD,
stochastic, then the pattern loop. -/
def bullish_signals (r : AnalysisResult) : ℚ :=
  let ind := r.indicators
  let maB : ℚ := ((maList ind.moving_averages).filter (fun e => e.trend == "Bullish")).length
  let rsiB : ℚ := if ind.oscillators.rsi.trend == "Oversold" then 2 else 0
  let macdB : ℚ := if ind.oscillators.macd.trend == "Bullish" then 2 else 0
  let stochB : ℚ := if ind.oscillators.stochastic.trend == "Oversold" then 1 else 0
  maB + rsiB + macdB + stochB + (patternScores r.patterns).1

/-- `bearish_signals` (source lines 157-202). -/
def bearish_signals (r : AnalysisResult) : ℚ :=
  let ind := r.indicators
  let maB : ℚ := ((maList ind.moving_averages).filter (fun e => e.trend == "Bearish")).length
  let rsiB : ℚ := if ind.oscillators.rsi.trend == "Overbought" then 2 else 0
  let macdB : ℚ := if ind.oscillators.macd.trend == "Bearish" then 2 else 0
  let stochB : ℚ := if ind.oscillators.stochastic.trend == "Overbought" then 1 else 0
  maB + rsiB + macdB + stochB + (patternScores r.patterns).2

/-- `signal_diff = bullish_signals - bearish_signals` (source line 205). -/
def signalDiff (r : AnalysisResult) : ℚ :=
  bullish_signals r - bearish_signals r

/-- The action selected from `signal_diff` (source lines 208-228). -/
def actionFor (diff : ℚ) : String :=
  if diff > 4 then "STRONG LONG"
  else if diff > 2 then "LONG"
  else if diff > 0 then "WEAK LONG"
  else if diff = 0 then "NEUTRAL"
  else if diff > -2 then "WEAK SHORT"
  else if diff > -4 then "SHORT"
  else "STRONG SHORT"

/-- The rationale selected alongside the action (source lines 208-228);
the timeframe label is interpolated into the templated text. -/
def rationaleFor (diff : ℚ) (timeframe : String) : String :=
  if diff > 4 then
    "Multiple bullish indicators and patterns suggest strong upward momentum on the " ++ timeframe ++ " timeframe. Moving averages are aligned bullishly with positive oscillator readings."
  else if diff > 2 then
    "Bullish signals outweigh bearish ones on the " ++ timeframe ++ " timeframe. Technical indicators suggest potential upward movement with moderate strength."
  else if diff > 0 then
    "Slightly bullish signals on the " ++ timeframe ++ " timeframe, but caution is advised. Some indicators show positive momentum, but conviction is not strong."
  else if diff = 0 then
    "Mixed signals on the " ++ timeframe ++ " timeframe suggest a sideways market. Equal bullish and bearish pressure indicates no clear direction at this time."
  else if diff > -2 then
    "Slightly bearish signals on the " ++ timeframe ++ " timeframe. Some indicators show negative momentum, but conviction is not strong."
  else if diff > -4 then
    "Bearish signals outweigh bullish ones on the " ++ timeframe ++ " timeframe. Technical indicators suggest potential downward movement with moderate strength."
  else
    "Multiple bearish indicators and patterns suggest strong downward momentum on the " ++ timeframe ++ " timeframe. Moving averages are aligned bearishly with negative oscillator readings."

/-- The strength percentage (source lines 256-262): `int()` truncation of
`|signal_diff| * 15`, capped at 100, and 0 when the diff is 0. -/
def strengthFor (diff : ℚ) : ℤ :=
  if diff > 0 then min 100 (pyInt (diff * 15))
  else if diff < 0 then min 100 (pyInt (|diff| * 15))
  else 0

/-- `generate_rule_based_suggestion` (source lines 141-271). -/
def generate_rule_based_suggestion (r : AnalysisResult) (timeframe : String) : Suggestion :=
  let diff := signalDiff r
  let action := actionFor diff
  let sr := r.indicators.support_resistance
  let current_price := (sr.support.1 + sr.resistance.2) / 2
  let levels : ℚ × ℚ × ℚ :=
    if pyIn "LONG" action then
      (current_price, sr.support.1 * (99/100), sr.resistance.1 * (101/100))
    else if pyIn "SHORT" action then
      (current_price, sr.resistance.1 * (101/100), sr.support.1 * (99/100))
    else
      (current_price, sr.support.1 * (98/100), sr.resistance.1 * (102/100))
  { action := action
    rationale := rationaleFor diff timeframe
    entry_point := round2 levels.1
    stop_loss := round2 levels.2.1
    take_profit := round2 levels.2.2
    strength := strengthFor diff }

/-! ## Pattern recognition (src/pattern_recognition.py)

`cv2.HoughLinesP` outputs are lists of segments (`none` when cv2 detects
nothing), `cv2.findContours` outputs are lists of contours carrying the
area, bounding rectangle and moments that cv2 computes for them, and the
HSV mask pixel counts of `detect_candlestick_patterns` are naturals.  The
repository logic over these external results is translated below. -/

/-- A line segment as returned by `cv2.HoughLinesP`. -/
structure Seg where
  x1 : ℤ
  y1 : ℤ
  x2 : ℤ
  y2 : ℤ
  deriving DecidableEq, Repr

/-- A contour together with the cv2-computed quantities the source reads
from it: `cv2.contourArea`, `cv2.boundingRect` and the moments used for
centroids. -/
structure Contour where
  area : ℚ
  x : ℤ
  y : ℤ
  w : ℤ
  h : ℤ
  m00 : ℚ
  m10 : ℚ
  m01 : ℚ
  deriving DecidableEq, Repr

/-- The three trend confidences returned by `detect_trend_lines`. -/
structure TrendLines where
  uptrend : ℚ
  downtrend : ℚ
  sideways : ℚ
  deriving DecidableEq, Repr

/-- The fixed defaults returned when no lines are detected
(source lines 152-158 and 182-188). -/
def defaultTrendLines : TrendLines := ⟨3/10, 3/10, 1/2⟩

/-- Slope classification loop of `detect_trend_lines` (source lines
160-180): returns `(up, down, horizontal)` counts.  Segments shorter than
20px in x-extent are skipped; `|slope| < 0.1` counts as horizontal,
positive slope as downtrend (image y grows downward), negative as
uptrend. -/
def classifySegments (segs : List Seg) : ℕ × ℕ × ℕ :=
  segs.foldl (fun acc s =>
    if |s.x2 - s.x1| < 20 then acc
    else if s.x2 ≠ s.x1 then
      let slope : ℚ := (s.y2 - s.y1 : ℤ) / (s.x2 - s.x1 : ℤ)
      if |slope| < 1/10 then (acc.1, acc.2.1, acc.2.2 + 1)
      else if slope > 0 then (acc.1, acc.2.1 + 1, acc.2.2)
      else (acc.1 + 1, acc.2.1, acc.2.2)
    else acc) (0, 0, 0)

/-- Confidence computation of `detect_trend_lines` from the classified
counts (source lines 180-213): per-class fraction, a +0.1 bonus to the
class holding the plurality (ties broken by the if/elif order), each
capped at 1. -/
def trendFromCounts (u d h : ℕ) : TrendLines :=
  let total := u + d + h
  if total = 0 then defaultTrendLines
  else
    let uc : ℚ := u / (total : ℚ)
    let dc : ℚ := d / (total : ℚ)
    let sc : ℚ := h / (total : ℚ)
    let strongest := max uc (max dc sc)
    if strongest = uc then ⟨min (uc + 1/10) 1, min dc 1, min sc 1⟩
    else if strongest = dc then ⟨min uc 1, min (dc + 1/10) 1, min sc 1⟩
    else ⟨min uc 1, min dc 1, min (sc + 1/10) 1⟩

/-- `detect_trend_lines` (source lines 132-213), parametrised by the
`cv2.HoughLinesP` result. -/
def detect_trend_lines (lines : Option (List Seg)) : TrendLines :=
  match lines with
  | none => defaultTrendLines
  | some segs =>
    let c := classifySegments segs
    trendFromCounts c.1 c.2.1 c.2.2

/-- `detect_candlestick_patterns` (source lines 215-277), parametrised by
the green/red mask pixel counts of the bottom third; grayscale images
(`isColor = false`) skip the analysis entirely. -/
def detect_candlestick_patterns (isColor : Bool) (green red : ℕ) : List Pattern :=
  if isColor then
    let total := green + red
    if 0 < total then
      let gr : ℚ := green / (total : ℚ)
      let rr : ℚ := red / (total : ℚ)
      (if gr > 6/10 ∧ 100 < green then
        [⟨"Bullish Candle Pattern",
          "Recent candles show strong buying pressure, suggesting bullish momentum.",
          min (1/2 + gr) (9/10)⟩]
       else []) ++
      (if rr > 6/10 ∧ 100 < red then
        [⟨"Bearish Candle Pattern",
          "Recent candles show strong selling pressure, suggesting bearish momentum.",
          min (1/2 + rr) (9/10)⟩]
       else [])
    else []
  else []

/-- Python's `sorted(contours, key=cv2.contourArea, reverse=True)`;
relative order of equal-area contours is not relied upon by any claim. -/
def sortContoursByArea (cs : List Contour) : List Contour :=
  cs.insertionSort (fun a b => b.area ≤ a.area)

/-- `detect_head_and_shoulders` (source lines 279-313): needs ≥3 contours
(else 0.0); takes bounding-box heights of the 3 largest; when the middle
height exceeds both neighbours the confidence is
`min(0.6 + 0.2·(middle/max(left,right)), 0.9)`, otherwise 0.2. -/
def detect_head_and_shoulders (contours : List Contour) : ℚ :=
  if contours.length < 3 then 0
  else
    let sorted := (sortContoursByArea contours).take 5
    let heights := (sorted.take 3).map (fun c => c.h)
    match heights with
    | [h0, h1, h2] =>
      if h1 > h0 ∧ h1 > h2 then
        let mx : ℤ := max h0 h2
        min (6/10 + 2/10 * ((h1 : ℚ) / (mx : ℚ))) (9/10)
      else 2/10
    | _ => 2/10

/-- Centroid extraction of `detect_double_top_bottom` (source lines
337-344): contours with nonzero `m00`, centroid components truncated with
`int()`. -/
def contourCentroids (cs : List Contour) : List (ℤ × ℤ) :=
  cs.foldr (fun c acc =>
    if c.m00 ≠ 0 then (pyInt (c.m10 / c.m00), pyInt (c.m01 / c.m00)) :: acc else acc) []

/-- `detect_double_top_bottom` (source lines 315-381), parametrised by the
contours and the edge-image height and width: scans adjacent x-sorted
centroid pairs; co-level, well-separated pairs set the double-top
confidence when the shared y lies in the top 40% of the frame, the
double-bottom confidence when in the bottom 40% (later pairs overwrite
earlier ones); both capped at 0.9, default 0.1. -/
def detect_double_top_bottom (contours : List Contour) (height width : ℕ) : ℚ × ℚ :=
  if contours.length < 2 then (1/10, 1/10)
  else
    let sorted := (sortContoursByArea contours).take 5
    let centroids := contourCentroids sorted
    if centroids.length < 2 then (1/10, 1/10)
    else
      let cs := centroids.insertionSort (fun p q => p.1 ≤ q.1)
      let conf := (cs.zip cs.tail).foldl (fun (acc : ℚ × ℚ) pq =>
        let y_diff : ℚ := ((|pq.1.2 - pq.2.2| : ℤ) : ℚ)
        if y_diff < (height : ℚ) * (5/100) then
          let x_diff : ℚ := ((|pq.1.1 - pq.2.1| : ℤ) : ℚ)
          if x_diff > (width : ℚ) * (15/100) then
            (if (pq.1.2 : ℚ) < (height : ℚ) * (4/10) then
               7/10 + 2/10 * (1 - y_diff / ((height : ℚ) * (5/100)))
             else acc.1,
             if (pq.1.2 : ℚ) > (height : ℚ) * (6/10) then
               7/10 + 2/10 * (1 - y_diff / ((height : ℚ) * (5/100)))
             else acc.2)
          else acc
        else acc) (1/10, 1/10)
      (min conf.1 (9/10), min conf.2 (9/10))

/-- Population mean of a list of rationals (`np.mean`). -/
def listMean (l : List ℚ) : ℚ := l.sum / (l.length : ℚ)

/-- Population variance of a list of rationals (`np.var`). -/
def listVar (l : List ℚ) : ℚ :=
  ((l.map (fun x => (x - listMean l) ^ 2)).sum) / (l.length : ℚ)

/-- `detect_triangle_patterns` (source lines 383-456), parametrised by the
`cv2.HoughLinesP` result: returns `(ascending, descending, symmetric)`
confidences. -/
def detect_triangle_patterns (lines : Option (List Seg)) : ℚ × ℚ × ℚ :=
  match lines with
  | none => (1/10, 1/10, 1/10)
  | some ls =>
    if ls.length < 2 then (1/10, 1/10, 1/10)
    else
      let slopes := ls.filterMap (fun s =>
        if s.x2 - s.x1 = 0 then none
        else some ((s.y2 - s.y1 : ℤ) / ((s.x2 - s.x1 : ℤ) : ℚ)))
      let down := slopes.filter (fun s => s > 0)
      let up := slopes.filter (fun s => s < 0)
      if 2 ≤ up.length ∧ 2 ≤ down.length then
        let up_var := listVar up
        let down_var := listVar down
        let vf := 1 / (1 + up_var + down_var)
        let up_avg := listMean up
        let down_avg := listMean down
        let sym :=
          if abs (abs up_avg - abs down_avg) < 2/10 * max (abs up_avg) (abs down_avg) then
            6/10 + 3/10 * vf
          else 1/10
        let asc :=
          if (down.any (fun s => |s| < 1/10)) ∧ (up.any (fun s => s < -(1/10))) then
            6/10 + 3/10 * vf
          else 1/10
        let desc :=
          if (up.any (fun s => |s| < 1/10)) ∧ (down.any (fun s => s > 1/10)) then
            6/10 + 3/10 * vf
          else 1/10
        (min asc (9/10), min desc (9/10), min sym (9/10))
      else (1/10, 1/10, 1/10)

/-- Fallback entry of `identify_patterns` (source lines 102-128): chosen
by whichever trend confidence attains the maximum, in if/elif order. -/
def fallbackPattern (tl : TrendLines) : Pattern :=
  let strength := max tl.uptrend (max tl.downtrend tl.sideways)
  if tl.uptrend = strength then
    ⟨"Weak Uptrend", "A mild bullish trend is visible but no clear pattern has formed.", strength⟩
  else if tl.downtrend = strength then
    ⟨"Weak Downtrend", "A mild bearish trend is visible but no clear pattern has formed.", strength⟩
  else
    ⟨"Neutral Market", "No clear trend or pattern is visible. The market appears to be neutral.", strength⟩

/-- The detected-pattern accumulation of `identify_patterns` (source
lines 24-100), parametrised by the two `cv2.HoughLinesP` results (trend
detection and triangle detection use different parameters), the
candlestick colour data, the contours (head and shoulders and double
top/bottom both call `cv2.findContours` on the same edge image) and the
edge-image dimensions. -/
def detectedPatterns (houghTrend : Option (List Seg)) (isColor : Bool)
    (green red : ℕ) (contours : List Contour) (houghTri : Option (List Seg))
    (height width : ℕ) : List Pattern :=
  let trend_lines := detect_trend_lines houghTrend
  let candlestick_patterns := detect_candlestick_patterns isColor green red
  let hs := detect_head_and_shoulders contours
  let dtb := detect_double_top_bottom contours height width
  let tri := detect_triangle_patterns houghTri
  (if trend_lines.uptrend > 6/10 then
      [⟨"Uptrend", "Price is making higher highs and higher lows, indicating bullish momentum.", trend_lines.uptrend⟩]
     else []) ++
    (if trend_lines.downtrend > 6/10 then
      [⟨"Downtrend", "Price is making lower highs and lower lows, indicating bearish momentum.", trend_lines.downtrend⟩]
     else []) ++
    (if trend_lines.sideways > 6/10 then
      [⟨"Sideways/Consolidation", "Price is moving within a range, indicating potential accumulation or distribution.", trend_lines.sideways⟩]
     else []) ++
    (if hs > 7/10 then
      [⟨"Head and Shoulders", "Reversal pattern indicating a potential trend change from bullish to bearish.", hs⟩]
     else []) ++
    (if dtb.1 > 7/10 then
      [⟨"Double Top", "Bearish reversal pattern indicating resistance and potential downward movement.", dtb.1⟩]
     else []) ++
    (if dtb.2 > 7/10 then
      [⟨"Double Bottom", "Bullish reversal pattern indicating support and potential upward movement.", dtb.2⟩]
     else []) ++
    (if tri.1 > 65/100 then
      [⟨"Ascending Triangle", "Bullish continuation pattern with higher lows and horizontal resistance.", tri.1⟩]
     else []) ++
    (if tri.2.1 > 65/100 then
      [⟨"Descending Triangle", "Bearish continuation pattern with lower highs and horizontal support.", tri.2.1⟩]
     else []) ++
    (if tri.2.2 > 65/100 then
      [⟨"Symmetric Triangle", "Neutral pattern indicating consolidation before a potential breakout.", tri.2.2⟩]
     else []) ++
    candlestick_patterns

/-- `identify_patterns` (source lines 7-130): the detector observations in
detection order, or exactly one fallback entry when none passed its
threshold. -/
def identify_patterns (houghTrend : Option (List Seg)) (isColor : Bool)
    (green red : ℕ) (contours : List Contour) (houghTri : Option (List Seg))
    (height width : ℕ) : List Pattern :=
  let detected := detectedPatterns houghTrend isColor green red contours houghTri height width
  if detected = [] then [fallbackPattern (detect_trend_lines houghTrend)] else detected

/-! ## Suggestion dispatcher (src/ai_suggestions.py lines 17-139)

The OpenAI call is the single external collaborator here.  Its outcome is
a parameter: either an exception (`Except.error`) or a parsed JSON object
whose expected fields may each be absent (`PartialSuggestion`).  The
credential (`apiKey`) and the initialised client (`client`) are likewise
parameters. -/

/-- The JSON object returned by the generative call: every field optional,
mirroring `json.loads` output before validation. -/
structure PartialSuggestion where
  action : Option String
  rationale : Option String
  entry_point : Option ℚ
  stop_loss : Option ℚ
  take_profit : Option ℚ
  strength : Option ℤ
  deriving DecidableEq, Repr

/-- `generate_ai_suggestion` (source lines 39-139): falls back to the
rule-based suggestion when the client is unavailable, when the external
call raises, or when a required field is missing (the `ValueError` raised
in the validation loop is caught by the same `except` handler); otherwise
accepts the object, defaulting `strength` to 75 when absent. -/
def generate_ai_suggestion (client : Option Unit)
    (callResult : Except String PartialSuggestion)
    (r : AnalysisResult) (timeframe : String) : Suggestion :=
  match client with
  | none => generate_rule_based_suggestion r timeframe
  | some _ =>
    match callResult with
    | .error _ => generate_rule_based_suggestion r timeframe
    | .ok s =>
      -- required_fields = [action, rationale, entry_point, stop_loss, take_profit]
      match s.action, s.rationale, s.entry_point, s.stop_loss, s.take_profit with
      | some a, some ra, some e, some sl, some tp =>
        { action := a, rationale := ra, entry_point := e, stop_loss := sl,
          take_profit := tp, strength := s.strength.getD 75 }
      | _, _, _, _, _ => generate_rule_based_suggestion r timeframe

/-- `get_trading_suggestion` (source lines 17-37): rule-based when no API
key is configured, otherwise the generative path wrapped in a handler that
falls back to the rule-based suggestion on any exception. -/
def get_trading_suggestion (apiKey : Bool) (client : Option Unit)
    (callResult : Except String PartialSuggestion)
    (r : AnalysisResult) (timeframe : String) : Suggestion :=
  if apiKey = false then generate_rule_based_suggestion r timeframe
  else generate_ai_suggestion client callResult r timeframe

/-! ## Claim-side definitions (written from the spec's words, for
refinement comparison against the source translations above) -/

/-- Claim C1's action table, written from the spec's words: exclusive
boundaries applied in order. -/
def claimC1Action (diff : ℚ) : String :=
  if diff > 4 then "STRONG LONG"
  else if diff > 2 then "LONG"
  else if diff > 0 then "WEAK LONG"
  else if diff = 0 then "NEUTRAL"
  else if diff > -2 then "WEAK SHORT"
  else if diff > -4 then "SHORT"
  else "STRONG SHORT"

/-- Claim C2's acceptance criterion, written from the spec's words: the
generative result is accepted exactly when a credential is configured, the
client is available, the call returned an object, and every required field
is present; an absent `strength` defaults to 75. -/
def acceptedGenerative (apiKey : Bool) (client : Option Unit)
    (callResult : Except String PartialSuggestion) : Option Suggestion :=
  match apiKey, client, callResult with
  | true, some _, .ok s =>
    match s.action, s.rationale, s.entry_point, s.stop_loss, s.take_profit with
    | some a, some ra, some e, some sl, some tp =>
      some { action := a, rationale := ra, entry_point := e, stop_loss := sl,
             take_profit := tp, strength := s.strength.getD 75 }
    | _, _, _, _, _ => none
  | _, _, _ => none

/-- Claim C3's strength formula, written from the spec's words:
`min(100, round(15·|diff|))`, 0 when diff is 0. -/
def claimC3Strength (diff : ℚ) : ℤ :=
  if diff = 0 then 0 else min 100 (pyRoundHalfEven (15 * |diff|))

/-! ## Concrete analysis results used as test inputs -/

/-- An analysis result whose signals yield `signal_diff = 1/2`: four
bullish and one bearish MA (+3 net), bearish MACD (-2), overbought
stochastic (-1), neutral RSI, and one Uptrend pattern of confidence 1/4
(+1/2).  All trend tags are values the pipeline actually produces. -/
def rHalf : AnalysisResult :=
  { patterns := [⟨"Uptrend", "Price is making higher highs and higher lows, indicating bullish momentum.", 1/4⟩]
    indicators :=
      { moving_averages :=
          ⟨⟨100, "Bullish"⟩, ⟨100, "Bullish"⟩, ⟨100, "Bullish"⟩, ⟨100, "Bullish"⟩, ⟨100, "Bearish"⟩⟩
        oscillators := ⟨⟨50, "Neutral"⟩, ⟨1, 2, -1, "Bearish"⟩, ⟨85, 85, "Overbought"⟩⟩
        support_resistance := ⟨(100, 110), (120, 110)⟩ } }

/-- An analysis result whose signals yield `signal_diff = 6`: five bullish
MAs (+5), bullish MACD (+2), overbought stochastic (-1), neutral RSI, and
a pattern contributing nothing to either side. -/
def rSix : AnalysisResult :=
  { patterns := [⟨"Sideways/Consolidation", "Price is moving within a range, indicating potential accumulation or distribution.", 62/100⟩]
    indicators :=
      { moving_averages :=
          ⟨⟨100, "Bullish"⟩, ⟨100, "Bullish"⟩, ⟨100, "Bullish"⟩, ⟨100, "Bullish"⟩, ⟨100, "Bullish"⟩⟩
        oscillators := ⟨⟨50, "Neutral"⟩, ⟨2, 1, 1, "Bullish"⟩, ⟨85, 85, "Overbought"⟩⟩
        support_resistance := ⟨(100, 110), (120, 110)⟩ } }

/-! ## Claim theorems -/

/-- C1: for every `AnalysisResult` and timeframe,
`generate_rule_based_suggestion` selects the action from
`diff = bullish - bearish` by the claimed exclusive boundaries applied in
order; in particular diff exactly 4 gives LONG, diff slightly above 4
gives STRONG LONG, and symmetrically at every other boundary. -/
theorem action_threshold_boundaries :
    (∀ r tf, (generate_rule_based_suggestion r tf).action = claimC1Action (signalDiff r)) ∧
    actionFor 5 = "STRONG LONG" ∧ actionFor (41/10) = "STRONG LONG" ∧
    actionFor 4 = "LONG" ∧ actionFor 3 = "LONG" ∧ actionFor (21/10) = "LONG" ∧
    actionFor 2 = "WEAK LONG" ∧ actionFor 1 = "WEAK LONG" ∧ actionFor (1/10) = "WEAK LONG" ∧
    actionFor 0 = "NEUTRAL" ∧
    actionFor (-1/10) = "WEAK SHORT" ∧ actionFor (-1) = "WEAK SHORT" ∧
    actionFor (-19/10) = "WEAK SHORT" ∧
    actionFor (-2) = "SHORT" ∧ actionFor (-3) = "SHORT" ∧ actionFor (-39/10) = "SHORT" ∧
    actionFor (-4) = "STRONG SHORT" ∧ actionFor (-5) = "STRONG SHORT" := by
  refine ⟨fun r tf => rfl, ?_, ?_, ?_, ?_, ?_, ?_, ?_, ?_, ?_, ?_, ?_, ?_, ?_, ?_, ?_, ?_, ?_⟩ <;>
    norm_num [actionFor]

/-- C2: `get_trading_suggestion` never propagates a failure of the
generative call: it returns the accepted generative suggestion exactly
when the credential is configured, the client initialised, the call
succeeded and all required fields are present (with `strength` defaulted
to 75 when absent), and the rule-based suggestion in every other case. -/
theorem dispatcher_fallback :
    ∀ apiKey client callResult r tf,
      get_trading_suggestion apiKey client callResult r tf =
        (acceptedGenerative apiKey client callResult).getD
          (generate_rule_based_suggestion r tf) := by
  intro apiKey client callResult r tf
  cases apiKey <;> cases client <;> cases callResult <;> try rfl
  case true.some.ok s =>
    rcases s with ⟨a, ra, e, sl, tp, st⟩
    cases a <;> cases ra <;> cases e <;> cases sl <;> cases tp <;> rfl

/-- C3 (counterexample): at `rHalf` the signal difference is exactly 1/2,
the code's strength is `int(7.5) = 7`, but the claimed formula
`min(100, round(15·|diff|))` gives 8. -/
theorem strength_round_counterexample :
    signalDiff rHalf = 1/2 ∧
    (generate_rule_based_suggestion rHalf "1h").strength = 7 ∧
    claimC3Strength (signalDiff rHalf) = 8 ∧
    (generate_rule_based_suggestion rHalf "1h").strength ≠ claimC3Strength (signalDiff rHalf) := by
  have hdiff : signalDiff rHalf = 1/2 := by
    simp [signalDiff, bullish_signals, bearish_signals, rHalf, maList, patternScores,
      List.filter_cons, String.reduceEq, pyIn, containsChars, startsWithChars]
    norm_num
  have hstr : (generate_rule_based_suggestion rHalf "1h").strength = 7 := by
    simp [generate_rule_based_suggestion, strengthFor, signalDiff, bullish_signals,
      bearish_signals, rHalf, maList, patternScores, List.filter_cons, String.reduceEq,
      pyIn, containsChars, startsWithChars, pyInt]
    norm_num
  have hclaim : claimC3Strength (signalDiff rHalf) = 8 := by
    rw [hdiff]
    have h8 : pyRoundHalfEven (15/2 : ℚ) = 8 := by
      simp only [pyRoundHalfEven]; norm_num
    have h15 : (15 : ℚ) * |1/2| = 15/2 := by norm_num [abs]
    simp only [claimC3Strength]
    rw [if_neg (by norm_num), h15, h8]
    norm_num
  exact ⟨hdiff, hstr, hclaim, by rw [hstr, hclaim]; decide⟩

/-- C3 (amended): the strength equals `min(100, int(15·|diff|))` where
`int` is Python's truncation toward zero (not rounding to nearest), and 0
when diff is 0; diff = 6 still yields action STRONG LONG with strength
90. -/
theorem strength_truncation :
    (∀ r tf, (generate_rule_based_suggestion r tf).strength =
      if signalDiff r = 0 then 0 else min 100 (pyInt (15 * |signalDiff r|))) ∧
    (generate_rule_based_suggestion rSix "1h").action = "STRONG LONG" ∧
    (generate_rule_based_suggestion rSix "1h").strength = 90 := by
  have hdiff : signalDiff rSix = 6 := by
    simp [signalDiff, bullish_signals, bearish_signals, rSix, maList, patternScores,
      List.filter_cons, String.reduceEq, pyIn, containsChars, startsWithChars]
    norm_num
  refine ⟨fun r tf => ?_, ?_, ?_⟩
  · show strengthFor (signalDiff r) = _
    rcases lt_trichotomy (signalDiff r) 0 with h | h | h
    · rw [strengthFor, if_neg (by exact not_lt.mpr h.le), if_pos h,
        if_neg h.ne, abs_of_neg h, mul_comm]
    · simp [strengthFor, h]
    · rw [strengthFor, if_pos h, if_neg (by exact ne_of_gt h), abs_of_pos h, mul_comm]
  · show actionFor (signalDiff rSix) = _
    rw [hdiff]; norm_num [actionFor]
  · show strengthFor (signalDiff rSix) = _
    rw [hdiff]; norm_num [strengthFor, pyInt]

/-! ### Rounding facts for the price-level ordering claim -/

/-- Half-to-even rounding lands within 1/2 of the argument. -/
theorem pyRoundHalfEven_bounds (x : ℚ) :
    x - 1/2 ≤ (pyRoundHalfEven x : ℚ) ∧ (pyRoundHalfEven x : ℚ) ≤ x + 1/2 := by
  have hf1 : (⌊x⌋ : ℚ) ≤ x := Int.floor_le x
  have hf2 : x < ⌊x⌋ + 1 := Int.lt_floor_add_one x
  simp only [pyRoundHalfEven]
  split_ifs with h1 h2 h3 <;> constructor <;> push_cast <;> linarith

/-- Rounding to 2 decimals lands within 1/200 of the argument. -/
theorem round2_bounds (x : ℚ) :
    x - 1/200 ≤ round2 x ∧ round2 x ≤ x + 1/200 := by
  obtain ⟨h1, h2⟩ := pyRoundHalfEven_bounds (100 * x)
  constructor <;> · rw [round2]; linarith

/-- Values separated by more than one centile stay strictly ordered after
rounding to 2 decimals. -/
theorem round2_strict_mono_gap {a b : ℚ} (h : a + 1/100 < b) : round2 a < round2 b := by
  obtain ⟨_, ha⟩ := round2_bounds a
  obtain ⟨hb, _⟩ := round2_bounds b
  linarith

/-- When the chosen action contains "LONG", the three price levels are the
LONG-branch formulas of the source (entry from `support[0]` and
`resistance[-1]`, stop just below `support[0]`, target just above
`resistance[0]`), each rounded to 2 decimals. -/
theorem ruleBased_long_levels (r : AnalysisResult) (tf : String)
    (hLong : pyIn "LONG" ((generate_rule_based_suggestion r tf).action) = true) :
    (generate_rule_based_suggestion r tf).entry_point =
      round2 ((r.indicators.support_resistance.support.1 +
        r.indicators.support_resistance.resistance.2) / 2) ∧
    (generate_rule_based_suggestion r tf).stop_loss =
      round2 (r.indicators.support_resistance.support.1 * (99/100)) ∧
    (generate_rule_based_suggestion r tf).take_profit =
      round2 (r.indicators.support_resistance.resistance.1 * (101/100)) := by
  have hb : pyIn "LONG" (actionFor (signalDiff r)) = true := hLong
  refine ⟨?_, ?_, ?_⟩ <;> simp only [generate_rule_based_suggestion, hb, reduceIte]

/-- C4 (counterexample input): signals give `diff = 3` (action LONG) and
`support = (100, 110)`, `resistance = (105, 50)`: the first support sits
below the first resistance, but `resistance[-1] = 50` drags the entry
midpoint to 75, below the stop at 99. -/
def rBad : AnalysisResult :=
  { patterns := []
    indicators :=
      { moving_averages :=
          ⟨⟨100, "Bullish"⟩, ⟨100, "Bullish"⟩, ⟨100, "Bullish"⟩, ⟨100, "Bearish"⟩, ⟨100, "Bearish"⟩⟩
        oscillators := ⟨⟨50, "Neutral"⟩, ⟨2, 1, 1, "Bullish"⟩, ⟨50, 50, "Neutral"⟩⟩
        support_resistance := ⟨(100, 110), (105, 50)⟩ } }

/-- Same signals as `rBad` (diff = 3, action LONG) with well-separated
levels `support = (100, 110)`, `resistance = (120, 110)`. -/
def rLong : AnalysisResult :=
  { patterns := []
    indicators :=
      { moving_averages :=
          ⟨⟨100, "Bullish"⟩, ⟨100, "Bullish"⟩, ⟨100, "Bullish"⟩, ⟨100, "Bearish"⟩, ⟨100, "Bearish"⟩⟩
        oscillators := ⟨⟨50, "Neutral"⟩, ⟨2, 1, 1, "Bullish"⟩, ⟨50, 50, "Neutral"⟩⟩
        support_resistance := ⟨(100, 110), (120, 110)⟩ } }

/-- C4 (counterexample): at `rBad` the action is LONG and
`support[0] = 100 < 105 = resistance[0]`, yet the stop (99.0) sits above
the entry (75.0), because the entry midpoint uses `resistance[-1] = 50`:
the claimed ordering `stop_loss < entry_point` fails. -/
theorem long_price_ordering_counterexample :
    pyIn "LONG" ((generate_rule_based_suggestion rBad "1h").action) = true ∧
    rBad.indicators.support_resistance.support.1 <
      rBad.indicators.support_resistance.resistance.1 ∧
    (generate_rule_based_suggestion rBad "1h").stop_loss = 99 ∧
    (generate_rule_based_suggestion rBad "1h").entry_point = 75 ∧
    ¬((generate_rule_based_suggestion rBad "1h").stop_loss <
      (generate_rule_based_suggestion rBad "1h").entry_point) := by
  have hd : signalDiff rBad = 3 := by
    simp [signalDiff, bullish_signals, bearish_signals, rBad, maList, patternScores,
      List.filter_cons, String.reduceEq, pyIn, containsChars, startsWithChars]
  have ha : (generate_rule_based_suggestion rBad "1h").action = "LONG" := by
    show actionFor (signalDiff rBad) = _
    rw [hd]; norm_num [actionFor]
  have hpy : pyIn "LONG" ((generate_rule_based_suggestion rBad "1h").action) = true := by
    rw [ha]; rfl
  obtain ⟨he, hs, _⟩ := ruleBased_long_levels rBad "1h" hpy
  have hs99 : (generate_rule_based_suggestion rBad "1h").stop_loss = 99 := by
    rw [hs]; norm_num [rBad, round2, pyRoundHalfEven]
  have he75 : (generate_rule_based_suggestion rBad "1h").entry_point = 75 := by
    rw [he]; norm_num [rBad, round2, pyRoundHalfEven]
  refine ⟨hpy, by norm_num [rBad], hs99, he75, ?_⟩
  rw [hs99, he75]; norm_num

/-- C4 (amended): for a suggestion whose action contains LONG, with
`support[0] < resistance[0]` and the additional separation hypotheses
(not implied by `support[0] < resistance[0]` alone, as the counterexample
shows) that the unrounded stop sits more than one centile below the entry
midpoint and the midpoint more than one centile below the unrounded
target, the returned prices satisfy `stop_loss < entry_point <
take_profit`, with `entry_point = round2((support[0]+resistance[-1])/2)`,
`stop_loss = round2(support[0]*0.99)`,
`take_profit = round2(resistance[0]*1.01)`. -/
theorem long_price_ordering (r : AnalysisResult) (tf : String)
    (hLong : pyIn "LONG" ((generate_rule_based_suggestion r tf).action) = true)
    (hsr : r.indicators.support_resistance.support.1 <
      r.indicators.support_resistance.resistance.1)
    (hstop : r.indicators.support_resistance.support.1 * (99/100) + 1/100 <
      (r.indicators.support_resistance.support.1 +
        r.indicators.support_resistance.resistance.2) / 2)
    (htake : (r.indicators.support_resistance.support.1 +
        r.indicators.support_resistance.resistance.2) / 2 + 1/100 <
      r.indicators.support_resistance.resistance.1 * (101/100)) :
    (generate_rule_based_suggestion r tf).entry_point =
      round2 ((r.indicators.support_resistance.support.1 +
        r.indicators.support_resistance.resistance.2) / 2) ∧
    (generate_rule_based_suggestion r tf).stop_loss =
      round2 (r.indicators.support_resistance.support.1 * (99/100)) ∧
    (generate_rule_based_suggestion r tf).take_profit =
      round2 (r.indicators.support_resistance.resistance.1 * (101/100)) ∧
    (generate_rule_based_suggestion r tf).stop_loss <
      (generate_rule_based_suggestion r tf).entry_point ∧
    (generate_rule_based_suggestion r tf).entry_point <
      (generate_rule_based_suggestion r tf).take_profit := by
  obtain ⟨he, hs, ht⟩ := ruleBased_long_levels r tf hLong
  refine ⟨he, hs, ht, ?_, ?_⟩
  · rw [he, hs]; exact round2_strict_mono_gap hstop
  · rw [he, ht]; exact round2_strict_mono_gap htake

/-- C4 (witness): at `rLong` the action is LONG, the hypotheses hold
concretely, and the rounded prices are strictly ordered. -/
theorem long_price_ordering_witness :
    pyIn "LONG" ((generate_rule_based_suggestion rLong "1h").action) = true ∧
    rLong.indicators.support_resistance.support.1 <
      rLong.indicators.support_resistance.resistance.1 ∧
    (generate_rule_based_suggestion rLong "1h").stop_loss <
      (generate_rule_based_suggestion rLong "1h").entry_point ∧
    (generate_rule_based_suggestion rLong "1h").entry_point <
      (generate_rule_based_suggestion rLong "1h").take_profit := by
  have hd : signalDiff rLong = 3 := by
    simp [signalDiff, bullish_signals, bearish_signals, rLong, maList, patternScores,
      List.filter_cons, String.reduceEq, pyIn, containsChars, startsWithChars]
  have ha : (generate_rule_based_suggestion rLong "1h").action = "LONG" := by
    show actionFor (signalDiff rLong) = _
    rw [hd]; norm_num [actionFor]
  have hpy : pyIn "LONG" ((generate_rule_based_suggestion rLong "1h").action) = true := by
    rw [ha]; rfl
  have h2 : rLong.indicators.support_resistance.support.1 <
      rLong.indicators.support_resistance.resistance.1 := by norm_num [rLong]
  have h3 : rLong.indicators.support_resistance.support.1 * (99/100) + 1/100 <
      (rLong.indicators.support_resistance.support.1 +
        rLong.indicators.support_resistance.resistance.2) / 2 := by norm_num [rLong]
  have h4 : (rLong.indicators.support_resistance.support.1 +
        rLong.indicators.support_resistance.resistance.2) / 2 + 1/100 <
      rLong.indicators.support_resistance.resistance.1 * (101/100) := by norm_num [rLong]
  obtain ⟨_, _, _, ho1, ho2⟩ := long_price_ordering rLong "1h" hpy h2 h3 h4
  exact ⟨hpy, h2, ho1, ho2⟩

/-- C8: `generate_rule_based_suggestion` is a pure function of its two
arguments (repeated calls agree definitionally), and for any two timeframe
strings — including tokens outside the documented set, which are accepted
without failure — the outputs agree on action, entry point, stop loss,
take profit and strength, differing at most in the rationale text. -/
theorem aggregator_timeframe_independence :
    (∀ r tf, generate_rule_based_suggestion r tf = generate_rule_based_suggestion r tf) ∧
    ∀ r tf1 tf2,
      (generate_rule_based_suggestion r tf1).action = (generate_rule_based_suggestion r tf2).action ∧
      (generate_rule_based_suggestion r tf1).entry_point = (generate_rule_based_suggestion r tf2).entry_point ∧
      (generate_rule_based_suggestion r tf1).stop_loss = (generate_rule_based_suggestion r tf2).stop_loss ∧
      (generate_rule_based_suggestion r tf1).take_profit = (generate_rule_based_suggestion r tf2).take_profit ∧
      (generate_rule_based_suggestion r tf1).strength = (generate_rule_based_suggestion r tf2).strength :=
  ⟨fun _ _ => rfl, fun _ _ _ => ⟨rfl, rfl, rfl, rfl, rfl⟩⟩

/-! ### Maximum-attainment lemmas for the tie-breaking claim -/

theorem max3_eq_left_iff {a b c : ℚ} : max a (max b c) = a ↔ b ≤ a ∧ c ≤ a := by
  constructor
  · intro h
    constructor
    · exact le_trans (le_max_left b c) (h ▸ le_max_right a (max b c))
    · exact le_trans (le_max_right b c) (h ▸ le_max_right a (max b c))
  · rintro ⟨hb, hc⟩
    exact max_eq_left (max_le hb hc)

theorem max3_eq_mid_iff {a b c : ℚ} : max a (max b c) = b ↔ a ≤ b ∧ c ≤ b := by
  constructor
  · intro h
    constructor
    · exact h ▸ le_max_left a (max b c)
    · exact le_trans (le_max_right b c) (le_trans (le_max_right a (max b c)) h.le)
  · rintro ⟨ha, hc⟩
    rw [max_eq_left hc, max_eq_right ha]

/-- C10: ties in trend-confidence comparisons are resolved in the fixed
preference order uptrend, downtrend, sideways: `detect_trend_lines` adds
the +0.1 plurality bonus to uptrend whenever uptrend attains the maximum
fraction, else to downtrend whenever it attains it, else to sideways; and
the empty-pattern fallback of `identify_patterns` emits Weak Uptrend
whenever the uptrend confidence attains the maximum of the three, Weak
Downtrend when downtrend attains it but uptrend does not, and Neutral
Market otherwise. -/
theorem trend_tie_priority :
    (∀ u d h : ℕ, trendFromCounts u d h =
      if u + d + h = 0 then defaultTrendLines
      else
        let uc : ℚ := u / ((u + d + h : ℕ) : ℚ)
        let dc : ℚ := d / ((u + d + h : ℕ) : ℚ)
        let sc : ℚ := h / ((u + d + h : ℕ) : ℚ)
        if dc ≤ uc ∧ sc ≤ uc then ⟨min (uc + 1/10) 1, min dc 1, min sc 1⟩
        else if uc ≤ dc ∧ sc ≤ dc then ⟨min uc 1, min (dc + 1/10) 1, min sc 1⟩
        else ⟨min uc 1, min dc 1, min (sc + 1/10) 1⟩) ∧
    (∀ tl : TrendLines, fallbackPattern tl =
      if tl.downtrend ≤ tl.uptrend ∧ tl.sideways ≤ tl.uptrend then
        ⟨"Weak Uptrend", "A mild bullish trend is visible but no clear pattern has formed.",
          max tl.uptrend (max tl.downtrend tl.sideways)⟩
      else if tl.uptrend ≤ tl.downtrend ∧ tl.sideways ≤ tl.downtrend then
        ⟨"Weak Downtrend", "A mild bearish trend is visible but no clear pattern has formed.",
          max tl.uptrend (max tl.downtrend tl.sideways)⟩
      else
        ⟨"Neutral Market", "No clear trend or pattern is visible. The market appears to be neutral.",
          max tl.uptrend (max tl.downtrend tl.sideways)⟩) := by
  constructor
  · intro u d h
    by_cases h0 : u + d + h = 0
    · simp [trendFromCounts, h0]
    · simp only [trendFromCounts, if_neg h0]
      by_cases h1 : (d : ℚ) / ((u + d + h : ℕ) : ℚ) ≤ (u : ℚ) / ((u + d + h : ℕ) : ℚ) ∧
          (h : ℚ) / ((u + d + h : ℕ) : ℚ) ≤ (u : ℚ) / ((u + d + h : ℕ) : ℚ)
      · rw [if_pos (max3_eq_left_iff.mpr h1), if_pos h1]
      · rw [if_neg (fun he => h1 (max3_eq_left_iff.mp he)), if_neg h1]
        by_cases h2 : (u : ℚ) / ((u + d + h : ℕ) : ℚ) ≤ (d : ℚ) / ((u + d + h : ℕ) : ℚ) ∧
            (h : ℚ) / ((u + d + h : ℕ) : ℚ) ≤ (d : ℚ) / ((u + d + h : ℕ) : ℚ)
        · rw [if_pos (max3_eq_mid_iff.mpr h2), if_pos h2]
        · rw [if_neg (fun he => h2 (max3_eq_mid_iff.mp he)), if_neg h2]
  · intro tl
    simp only [fallbackPattern]
    by_cases h1 : tl.downtrend ≤ tl.uptrend ∧ tl.sideways ≤ tl.uptrend
    · rw [if_pos (max3_eq_left_iff.mpr h1).symm, if_pos h1]
    · rw [if_neg (fun he => h1 (max3_eq_left_iff.mp he.symm)), if_neg h1]
      by_cases h2 : tl.uptrend ≤ tl.downtrend ∧ tl.sideways ≤ tl.downtrend
      · rw [if_pos (max3_eq_mid_iff.mpr h2).symm, if_pos h2]
      · rw [if_neg (fun he => h2 (max3_eq_mid_iff.mp he.symm)), if_neg h2]

/-- C9: for every colour image, `detect_candlestick_patterns` returns at
most one pattern — the green and red ratios sum to 1 so both cannot exceed
0.6 — and any emitted candle pattern has confidence exactly 0.9, since
`ratio > 0.6` forces `0.5 + ratio` past the 0.9 cap. -/
theorem candlestick_mutual_exclusion :
    ∀ green red : ℕ,
      detect_candlestick_patterns true green red = [] ∨
      ∃ nm ds, detect_candlestick_patterns true green red = [⟨nm, ds, 9/10⟩] := by
  intro g r
  by_cases h0 : 0 < g + r
  · have ht : ((g + r : ℕ) : ℚ) ≠ 0 := by exact_mod_cast h0.ne'
    have hsum : (g : ℚ) / ((g + r : ℕ) : ℚ) + (r : ℚ) / ((g + r : ℕ) : ℚ) = 1 := by
      rw [div_add_div_same, div_eq_one_iff_eq ht]
      push_cast
      ring
    by_cases hg : (g : ℚ) / ((g + r : ℕ) : ℚ) > 6/10 ∧ 100 < g
    · by_cases hr : (r : ℚ) / ((g + r : ℕ) : ℚ) > 6/10 ∧ 100 < r
      · exact absurd hsum (by intro hs; linarith [hg.1, hr.1])
      · refine Or.inr ⟨"Bullish Candle Pattern",
          "Recent candles show strong buying pressure, suggesting bullish momentum.", ?_⟩
        have hmin : min (1/2 + (g : ℚ) / ((g + r : ℕ) : ℚ)) (9/10) = 9/10 :=
          min_eq_right (by linarith [hg.1])
        simp only [detect_candlestick_patterns]
        rw [if_pos trivial, if_pos h0, if_pos hg, if_neg hr, hmin]
        simp
    · by_cases hr : (r : ℚ) / ((g + r : ℕ) : ℚ) > 6/10 ∧ 100 < r
      · refine Or.inr ⟨"Bearish Candle Pattern",
          "Recent candles show strong selling pressure, suggesting bearish momentum.", ?_⟩
        have hmin : min (1/2 + (r : ℚ) / ((g + r : ℕ) : ℚ)) (9/10) = 9/10 :=
          min_eq_right (by linarith [hr.1])
        simp only [detect_candlestick_patterns]
        rw [if_pos trivial, if_pos h0, if_neg hg, if_pos hr, hmin]
        simp
      · refine Or.inl ?_
        simp only [detect_candlestick_patterns]
        rw [if_pos trivial, if_pos h0, if_neg hg, if_neg hr]
        simp
  · refine Or.inl ?_
    simp only [detect_candlestick_patterns]
    rw [if_pos trivial, if_neg h0]

/-- C7 (counterexample): with zero detected line segments and zero
contours but a colour image whose bottom third is dominated by green
pixels, `identify_patterns` returns the Bullish Candle Pattern, not the
claimed single Neutral Market entry. -/
theorem degenerate_candlestick_counterexample :
    identify_patterns none true 200 0 [] none 10 10 =
      [⟨"Bullish Candle Pattern",
        "Recent candles show strong buying pressure, suggesting bullish momentum.", 9/10⟩] ∧
    identify_patterns none true 200 0 [] none 10 10 ≠
      [⟨"Neutral Market",
        "No clear trend or pattern is visible. The market appears to be neutral.", 1/2⟩] := by
  have h : identify_patterns none true 200 0 [] none 10 10 =
      [⟨"Bullish Candle Pattern",
        "Recent candles show strong buying pressure, suggesting bullish momentum.", 9/10⟩] := by
    simp only [identify_patterns]
    norm_num [detectedPatterns, detect_trend_lines, detect_candlestick_patterns,
      detect_head_and_shoulders, detect_double_top_bottom, detect_triangle_patterns,
      defaultTrendLines, fallbackPattern, max_def]
  refine ⟨h, ?_⟩
  rw [h]
  simp

/-! ## Support/resistance extraction (src/technical_indicators.py)

`cv2.HoughLinesP` and `scipy.signal.find_peaks` are external; the
horizontal-line filtering/deduplication and the level construction are
repository logic, translated here.  The `np.random.uniform` draws used for
padding are parameters. -/

/-- Deduplication loop of `detect_horizontal_lines` (source lines
311-319): keeps a line only when it is more than 20px below the last kept
line. -/
def dedupeLines (last : ℤ) : List ℤ → List ℤ
  | [] => []
  | l :: ls => if l - last > 20 then l :: dedupeLines l ls else dedupeLines last ls

/-- `detect_horizontal_lines` (source lines 283-321), parametrised by the
`cv2.HoughLinesP` result: keeps near-horizontal segments
(`|y2 - y1| < 10`), records `(y1 + y2) // 2`, sorts, and deduplicates
lines closer than 20px. -/
def detect_horizontal_lines (lines : Option (List Seg)) : List ℤ :=
  let horizontal_lines : List ℤ :=
    match lines with
    | none => []
    | some ls => ls.filterMap (fun s : Seg =>
        if |s.y2 - s.y1| < 10 then some (Int.fdiv (s.y1 + s.y2) 2) else none)
  match horizontal_lines.insertionSort (· ≤ ·) with
  | [] => []
  | top :: rest => top :: dedupeLines top rest

/-- Alternating assignment of `extract_support_resistance` (source lines
253-262): even indices to the first component (resistance), odd to the
second (support). -/
def alternates : List ℚ → List ℚ × List ℚ
  | [] => ([], [])
  | x :: xs =>
    let p := alternates xs
    (x :: p.2, p.1)

/-- The `while len(...) < 2: append(..)` padding loops (source lines
265-269): at most two draws are consumed. -/
def padToTwo (l : List ℚ) (d0 d1 : ℚ) : List ℚ :=
  match l with
  | [] => [d0, d1]
  | [a] => [a, d0]
  | l => l

/-- `extract_support_resistance` (source lines 201-281), parametrised by
the horizontal-line Hough result, the scipy peak fallback, the grayscale
image height, and the four uniform draws available to the padding loops
(`padS* ∈ [0, 0.3]`, `padR* ∈ [0.7, 1.0]` in the source; the invariant
holds for arbitrary draws).  Returns `(support, resistance)`. -/
def extract_support_resistance (houghHoriz : Option (List Seg)) (peaks : List ℤ)
    (height : ℚ) (padS0 padS1 padR0 padR1 : ℚ) : List ℚ × List ℚ :=
  let horizontal_lines := detect_horizontal_lines houghHoriz
  let horizontal_lines := if horizontal_lines = [] then peaks else horizontal_lines
  let price_min : ℚ := 50
  let price_max : ℚ := 200
  let sortedLines := horizontal_lines.insertionSort (fun a b => b ≤ a)
  let prices := sortedLines.map (fun y =>
    round2 (price_min + (1 - (y : ℚ) / height) * (price_max - price_min)))
  let assigned := alternates prices
  let support_levels := padToTwo assigned.2
    (round2 (price_min + padS0 * (price_max - price_min)))
    (round2 (price_min + padS1 * (price_max - price_min)))
  let resistance_levels := padToTwo assigned.1
    (round2 (price_min + padR0 * (price_max - price_min)))
    (round2 (price_min + padR1 * (price_max - price_min)))
  ((support_levels.insertionSort (· ≤ ·)).take 2,
   (resistance_levels.insertionSort (fun a b => b ≤ a)).take 2)

instance : IsTotal ℚ (fun a b => b ≤ a) := ⟨fun a b => le_total b a⟩

instance : IsTrans ℚ (fun a b => b ≤ a) := ⟨fun _ _ _ h1 h2 => le_trans h2 h1⟩

theorem padToTwo_length (l : List ℚ) (d0 d1 : ℚ) : 2 ≤ (padToTwo l d0 d1).length := by
  match l with
  | [] => simp [padToTwo]
  | [a] => simp [padToTwo]
  | a :: b :: t => simp [padToTwo]

theorem take2_insertionSort_padToTwo_length (r : ℚ → ℚ → Prop) [DecidableRel r]
    (l : List ℚ) (d0 d1 : ℚ) :
    ((((padToTwo l d0 d1).insertionSort r)).take 2).length = 2 := by
  rw [List.length_take, List.length_insertionSort]
  have := padToTwo_length l d0 d1
  omega

/-- C6: for every Hough result, peak fallback, image height and padding
draws, `extract_support_resistance` returns a support list of exactly 2
entries sorted ascending and a resistance list of exactly 2 entries sorted
descending — missing candidates are padded synthetically before
truncation. -/
theorem support_resistance_shape :
    ∀ houghHoriz peaks height padS0 padS1 padR0 padR1,
      (extract_support_resistance houghHoriz peaks height padS0 padS1 padR0 padR1).1.length = 2 ∧
      (extract_support_resistance houghHoriz peaks height padS0 padS1 padR0 padR1).1.Sorted (· ≤ ·) ∧
      (extract_support_resistance houghHoriz peaks height padS0 padS1 padR0 padR1).2.length = 2 ∧
      (extract_support_resistance houghHoriz peaks height padS0 padS1 padR0 padR1).2.Sorted (· ≥ ·) := by
  intro houghHoriz peaks height padS0 padS1 padR0 padR1
  simp only [extract_support_resistance]
  refine ⟨?_, ?_, ?_, ?_⟩
  · exact take2_insertionSort_padToTwo_length _ _ _ _
  · exact (List.sorted_insertionSort _ _).sublist (List.take_sublist 2 _)
  · exact take2_insertionSort_padToTwo_length _ _ _ _
  · exact (List.sorted_insertionSort (fun a b => b ≤ a) _).sublist (List.take_sublist 2 _)

/-! ## Indicator synthesis and `analyze_chart`
(src/technical_indicators.py lines 42-199, src/chart_analyzer.py lines
6-32)

The brightness statistics (`np.mean` over image regions) and the
`np.random.uniform` draws are parameters; the value construction, trend
tagging and clamping are repository logic. -/

/-- `extract_moving_averages` (technical_indicators.py lines 42-112):
a synthetic reference price from the right-strip brightness, five MA
values scaled by per-series uniform draws, trend Bullish when the MA
value sits below the reference price, else Bearish. -/
def extract_moving_averages (brightness u20 u50 u200 u12 u26 : ℚ) : MovingAverages :=
  let simulated_price := 50 + brightness / 255 * 150
  let mk := fun (u : ℚ) =>
    let v := simulated_price * (1 + u)
    MAEntry.mk v (if v < simulated_price then "Bullish" else "Bearish")
  ⟨mk u20, mk u50, mk u200, mk u12, mk u26⟩

/-- `extract_oscillators` (technical_indicators.py lines 114-199): RSI
from the bottom-third brightness clamped to [0,100] with
Overbought/Oversold/Neutral tagging; MACD line drawn uniformly, signal a
scaled copy, histogram their difference, trend Bullish when line exceeds
signal; stochastic K clamped to [0,100], D a scaled copy, trend
Overbought/Oversold only when both components pass the band. -/
def extract_oscillators (brightness macdLineDraw macdSigFactor stochKDraw stochDFactor : ℚ) :
    Oscillators :=
  let rsi_value := min (max (brightness / 255 * 100) 0) 100
  let rsi_trend :=
    if rsi_value > 70 then "Overbought"
    else if rsi_value < 30 then "Oversold"
    else "Neutral"
  let macd_line := macdLineDraw
  let macd_signal := macd_line * (1 + macdSigFactor)
  let macd_histogram := macd_line - macd_signal
  let macd_trend := if macd_line > macd_signal then "Bullish" else "Bearish"
  let stoch_k := min (max stochKDraw 0) 100
  let stoch_d := stoch_k * (1 + stochDFactor)
  let stoch_trend :=
    if stoch_k > 80 ∧ stoch_d > 80 then "Overbought"
    else if stoch_k < 20 ∧ stoch_d < 20 then "Oversold"
    else "Neutral"
  ⟨⟨rsi_value, rsi_trend⟩, ⟨macd_line, macd_signal, macd_histogram, macd_trend⟩,
    ⟨stoch_k, stoch_d, stoch_trend⟩⟩

/-- Reads the exactly-two levels guaranteed by the extraction invariant
into the record's pair form; the catch-all branch is unreachable for
`extract_support_resistance` outputs (both sides always have length 2). -/
def srPair : List ℚ → ℚ × ℚ
  | [a, b] => (a, b)
  | _ => (0, 0)

/-- `extract_indicators` (technical_indicators.py lines 5-40): assembles
the moving averages, oscillators and support/resistance levels into the
indicator record.  (The Python function also receives the timeframe but
never reads it.) -/
def extract_indicators (maBrightness u20 u50 u200 u12 u26 : ℚ)
    (oscBrightness macdLineDraw macdSigFactor stochKDraw stochDFactor : ℚ)
    (houghHoriz : Option (List Seg)) (peaks : List ℤ) (imgHeight : ℚ)
    (padS0 padS1 padR0 padR1 : ℚ) : IndicatorSet :=
  let sr := extract_support_resistance houghHoriz peaks imgHeight padS0 padS1 padR0 padR1
  { moving_averages := extract_moving_averages maBrightness u20 u50 u200 u12 u26
    oscillators := extract_oscillators oscBrightness macdLineDraw macdSigFactor
      stochKDraw stochDFactor
    support_resistance := ⟨srPair sr.1, srPair sr.2⟩ }

/-- `analyze_chart` (chart_analyzer.py lines 6-32): after preprocessing
(modelled separately), combines `identify_patterns` and
`extract_indicators` into the one `AnalysisResult` returned per
invocation; both sub-calls are parametrised by their external detector
results and random draws as above. -/
def analyze_chart (houghTrend : Option (List Seg)) (isColor : Bool) (green red : ℕ)
    (contours : List Contour) (houghTri : Option (List Seg)) (height width : ℕ)
    (maBrightness u20 u50 u200 u12 u26 : ℚ)
    (oscBrightness macdLineDraw macdSigFactor stochKDraw stochDFactor : ℚ)
    (houghHoriz : Option (List Seg)) (peaks : List ℤ) (imgHeight : ℚ)
    (padS0 padS1 padR0 padR1 : ℚ) : AnalysisResult :=
  { patterns := identify_patterns houghTrend isColor green red contours houghTri height width
    indicators := extract_indicators maBrightness u20 u50 u200 u12 u26
      oscBrightness macdLineDraw macdSigFactor stochKDraw stochDFactor
      houghHoriz peaks imgHeight padS0 padS1 padR0 padR1 }

/-- The spec's "fully populated IndicatorSet" (§3): every moving average
carries a Bullish/Bearish trend, the RSI value lies in [0,100] with a
valid trend tag, the MACD histogram is line minus signal with a
Bullish/Bearish trend, the stochastic trend tag is valid, support is
ascending and resistance descending. -/
def FullyPopulatedIndicators (ind : IndicatorSet) : Prop :=
  (ind.moving_averages.sma_20.trend = "Bullish" ∨ ind.moving_averages.sma_20.trend = "Bearish") ∧
  (ind.moving_averages.sma_50.trend = "Bullish" ∨ ind.moving_averages.sma_50.trend = "Bearish") ∧
  (ind.moving_averages.sma_200.trend = "Bullish" ∨ ind.moving_averages.sma_200.trend = "Bearish") ∧
  (ind.moving_averages.ema_12.trend = "Bullish" ∨ ind.moving_averages.ema_12.trend = "Bearish") ∧
  (ind.moving_averages.ema_26.trend = "Bullish" ∨ ind.moving_averages.ema_26.trend = "Bearish") ∧
  (0 ≤ ind.oscillators.rsi.value ∧ ind.oscillators.rsi.value ≤ 100) ∧
  (ind.oscillators.rsi.trend = "Overbought" ∨ ind.oscillators.rsi.trend = "Oversold" ∨
    ind.oscillators.rsi.trend = "Neutral") ∧
  ind.oscillators.macd.histogram = ind.oscillators.macd.line - ind.oscillators.macd.signal ∧
  (ind.oscillators.macd.trend = "Bullish" ∨ ind.oscillators.macd.trend = "Bearish") ∧
  (ind.oscillators.stochastic.trend = "Overbought" ∨
    ind.oscillators.stochastic.trend = "Oversold" ∨
    ind.oscillators.stochastic.trend = "Neutral") ∧
  ind.support_resistance.support.1 ≤ ind.support_resistance.support.2 ∧
  ind.support_resistance.resistance.2 ≤ ind.support_resistance.resistance.1

/-- The extraction always yields exactly two sorted levels per side, read
off as an explicit pair of pairs. -/
theorem extract_sr_pair_shape (houghHoriz : Option (List Seg)) (peaks : List ℤ)
    (imgHeight padS0 padS1 padR0 padR1 : ℚ) :
    ∃ s0 s1 r0 r1,
      extract_support_resistance houghHoriz peaks imgHeight padS0 padS1 padR0 padR1 =
        ([s0, s1], [r0, r1]) ∧ s0 ≤ s1 ∧ r1 ≤ r0 := by
  have hs2 : (extract_support_resistance houghHoriz peaks imgHeight padS0 padS1 padR0 padR1).1.length = 2 := by
    simp only [extract_support_resistance]
    exact take2_insertionSort_padToTwo_length _ _ _ _
  have hss : (extract_support_resistance houghHoriz peaks imgHeight padS0 padS1 padR0 padR1).1.Sorted (· ≤ ·) := by
    simp only [extract_support_resistance]
    exact (List.sorted_insertionSort _ _).sublist (List.take_sublist 2 _)
  have hr2 : (extract_support_resistance houghHoriz peaks imgHeight padS0 padS1 padR0 padR1).2.length = 2 := by
    simp only [extract_support_resistance]
    exact take2_insertionSort_padToTwo_length _ _ _ _
  have hrs : (extract_support_resistance houghHoriz peaks imgHeight padS0 padS1 padR0 padR1).2.Sorted (· ≥ ·) := by
    simp only [extract_support_resistance]
    exact (List.sorted_insertionSort (fun a b => b ≤ a) _).sublist (List.take_sublist 2 _)
  obtain ⟨s0, s1, hsl⟩ := List.length_eq_two.mp hs2
  obtain ⟨r0, r1, hrl⟩ := List.length_eq_two.mp hr2
  refine ⟨s0, s1, r0, r1, Prod.ext hsl hrl, ?_, ?_⟩
  · rw [hsl] at hss
    exact (List.sorted_cons.mp hss).1 s1 (by simp)
  · rw [hrl] at hrs
    exact (List.sorted_cons.mp hrs).1 r1 (by simp)

/-- C7 (amended): for every detector outcome, `identify_patterns` returns
a non-empty pattern list (the fallback synthesises exactly one entry when
no detector passes its threshold); `analyze_chart` returns exactly one
`AnalysisResult` combining that non-empty pattern list with the
`extract_indicators` record, and that record is a fully populated
`IndicatorSet` whose support/resistance pair holds the exactly-two sorted
levels of the extraction; and in the specific case of zero line segments
and zero contours — provided the candlestick analysis also emits nothing,
e.g. for a grayscale image — the trend confidences are the defaults
uptrend 0.3, downtrend 0.3, sideways 0.5 and the pattern list is exactly
one Neutral Market entry with confidence 0.5.  (A colour image with
dominant candle colours can emit a candle pattern despite zero segments
and contours, so that proviso is necessary.) -/
theorem analysis_fallback_guarantees :
    (∀ houghTrend isColor green red contours houghTri height width,
      identify_patterns houghTrend isColor green red contours houghTri height width ≠ []) ∧
    (∀ houghTrend isColor green red contours houghTri height width
        maBrightness u20 u50 u200 u12 u26 oscBrightness macdLineDraw macdSigFactor
        stochKDraw stochDFactor houghHoriz peaks imgHeight padS0 padS1 padR0 padR1,
      (analyze_chart houghTrend isColor green red contours houghTri height width
          maBrightness u20 u50 u200 u12 u26 oscBrightness macdLineDraw macdSigFactor
          stochKDraw stochDFactor houghHoriz peaks imgHeight padS0 padS1 padR0 padR1).patterns =
        identify_patterns houghTrend isColor green red contours houghTri height width ∧
      (analyze_chart houghTrend isColor green red contours houghTri height width
          maBrightness u20 u50 u200 u12 u26 oscBrightness macdLineDraw macdSigFactor
          stochKDraw stochDFactor houghHoriz peaks imgHeight padS0 padS1 padR0 padR1).indicators =
        extract_indicators maBrightness u20 u50 u200 u12 u26 oscBrightness macdLineDraw
          macdSigFactor stochKDraw stochDFactor houghHoriz peaks imgHeight padS0 padS1 padR0 padR1 ∧
      (analyze_chart houghTrend isColor green red contours houghTri height width
          maBrightness u20 u50 u200 u12 u26 oscBrightness macdLineDraw macdSigFactor
          stochKDraw stochDFactor houghHoriz peaks imgHeight padS0 padS1 padR0 padR1).patterns ≠ []) ∧
    (∀ maBrightness u20 u50 u200 u12 u26 oscBrightness macdLineDraw macdSigFactor
        stochKDraw stochDFactor houghHoriz peaks imgHeight padS0 padS1 padR0 padR1,
      FullyPopulatedIndicators (extract_indicators maBrightness u20 u50 u200 u12 u26
        oscBrightness macdLineDraw macdSigFactor stochKDraw stochDFactor
        houghHoriz peaks imgHeight padS0 padS1 padR0 padR1) ∧
      ∃ s0 s1 r0 r1,
        extract_support_resistance houghHoriz peaks imgHeight padS0 padS1 padR0 padR1 =
          ([s0, s1], [r0, r1]) ∧
        (extract_indicators maBrightness u20 u50 u200 u12 u26 oscBrightness macdLineDraw
          macdSigFactor stochKDraw stochDFactor houghHoriz peaks imgHeight
          padS0 padS1 padR0 padR1).support_resistance = ⟨(s0, s1), (r0, r1)⟩) ∧
    detect_trend_lines none = ⟨3/10, 3/10, 1/2⟩ ∧
    (∀ green red height width,
      identify_patterns none false green red [] none height width =
        [⟨"Neutral Market",
          "No clear trend or pattern is visible. The market appears to be neutral.", 1/2⟩]) := by
  have hne : ∀ houghTrend isColor green red contours houghTri height width,
      identify_patterns houghTrend isColor green red contours houghTri height width ≠ [] := by
    intro ht isC g r cs tri hgt wd
    simp only [identify_patterns]
    by_cases hL : detectedPatterns ht isC g r cs tri hgt wd = [] <;> simp [hL]
  refine ⟨hne, ?_, ?_, rfl, ?_⟩
  · intro ht isC g r cs tri hgt wd mab u20 u50 u200 u12 u26 osb ml msf sk sdf hh pk ih p0 p1 p2 p3
    exact ⟨rfl, rfl, hne ht isC g r cs tri hgt wd⟩
  · intro mab u20 u50 u200 u12 u26 osb ml msf sk sdf hh pk ih p0 p1 p2 p3
    obtain ⟨s0, s1, r0, r1, hE, hs01, hr10⟩ := extract_sr_pair_shape hh pk ih p0 p1 p2 p3
    have hsr : (extract_indicators mab u20 u50 u200 u12 u26 osb ml msf sk sdf
        hh pk ih p0 p1 p2 p3).support_resistance = ⟨(s0, s1), (r0, r1)⟩ := by
      simp only [extract_indicators]
      rw [hE]
      rfl
    constructor
    · unfold FullyPopulatedIndicators
      refine ⟨?_, ?_, ?_, ?_, ?_, ?_, ?_, ?_, ?_, ?_, ?_, ?_⟩
      · simp only [extract_indicators, extract_moving_averages]; split <;> simp
      · simp only [extract_indicators, extract_moving_averages]; split <;> simp
      · simp only [extract_indicators, extract_moving_averages]; split <;> simp
      · simp only [extract_indicators, extract_moving_averages]; split <;> simp
      · simp only [extract_indicators, extract_moving_averages]; split <;> simp
      · exact ⟨le_min (le_max_right _ 0) (by norm_num), min_le_right _ _⟩
      · simp only [extract_indicators, extract_oscillators]; split_ifs <;> simp
      · rfl
      · simp only [extract_indicators, extract_oscillators]; split <;> simp
      · simp only [extract_indicators, extract_oscillators]; split_ifs <;> simp
      · rw [hsr]; exact hs01
      · rw [hsr]; exact hr10
    · exact ⟨s0, s1, r0, r1, hE, hsr⟩
  · intro g r hgt wd
    simp only [identify_patterns]
    norm_num [detectedPatterns, detect_trend_lines, detect_candlestick_patterns,
      detect_head_and_shoulders, detect_double_top_bottom, detect_triangle_patterns,
      defaultTrendLines, fallbackPattern, max_def]

/-! ## Image preprocessor (src/chart_analyzer.py lines 34-71)

`preprocess_image` performs no validation of its own: it composes five
OpenCV primitives (`cvtColor`, `GaussianBlur`, `adaptiveThreshold`,
`Canny`, `dilate`).  Those are external collaborators; they are passed as
parameters constrained only by OpenCV's documented contract (spec §4.1 /
§7): each rejects an empty input buffer and otherwise produces a buffer of
the same height and width. -/

/-- Error taxonomy of spec §7 relevant to preprocessing. -/
inductive CvError where
  | invalidImage
  deriving DecidableEq, Repr

/-- A pixel buffer: dimensions, channel count and contents. -/
structure Image where
  h : ℕ
  w : ℕ
  channels : ℕ
  pix : ℕ → ℕ → ℕ → ℕ

/-- The `{gray, edges, original}` value object returned by
`preprocess_image`. -/
structure Views where
  gray : Image
  edges : Image
  original : Image

/-- Modelled from the spec: the contract of an OpenCV image-to-image
primitive (an external collaborator, not repository code) — it fails with
`InvalidImage` exactly on a zero-area input and otherwise returns a buffer
with the same height and width (§4.1, §7). -/
def CvPrimitive (f : Image → Except CvError Image) : Prop :=
  (∀ i, i.h * i.w = 0 → f i = Except.error CvError.invalidImage) ∧
  (∀ i, i.h * i.w ≠ 0 → ∃ o, f i = Except.ok o ∧ o.h = i.h ∧ o.w = i.w)

/-- `preprocess_image` (source lines 34-71): grayscale conversion only for
3-channel input, then blur, adaptive threshold, edge detection and
dilation, with no validation of its own; any primitive failure
propagates. -/
def preprocess_image (cvtColor gaussianBlur adaptiveThreshold canny dilate :
    Image → Except CvError Image) (image : Image) : Except CvError Views :=
  let grayStep := if image.channels = 3 then cvtColor image else Except.ok image
  match grayStep with
  | .error e => .error e
  | .ok gray =>
    match gaussianBlur gray with
    | .error e => .error e
    | .ok blurred =>
      match adaptiveThreshold blurred with
      | .error e => .error e
      | .ok thresh =>
        match canny thresh with
        | .error e => .error e
        | .ok edges =>
          match dilate edges with
          | .error e => .error e
          | .ok dilated => .ok ⟨gray, dilated, image⟩

/-- C5: for primitives satisfying the OpenCV contract, `preprocess_image`
fails with `InvalidImage` exactly when the input buffer (grayscale or
3-channel) has zero area, and succeeds on every non-empty buffer — the
repository code adds no validation of its own. -/
theorem preprocess_zero_area (cvtColor gaussianBlur adaptiveThreshold canny dilate :
      Image → Except CvError Image)
    (hcvt : CvPrimitive cvtColor) (hblur : CvPrimitive gaussianBlur)
    (hthr : CvPrimitive adaptiveThreshold) (hcan : CvPrimitive canny)
    (hdil : CvPrimitive dilate) (img : Image)
    (hch : img.channels = 1 ∨ img.channels = 3) :
    (preprocess_image cvtColor gaussianBlur adaptiveThreshold canny dilate img =
        Except.error CvError.invalidImage ↔ img.h * img.w = 0) ∧
    (img.h * img.w ≠ 0 →
      ∃ v : Views, preprocess_image cvtColor gaussianBlur adaptiveThreshold canny dilate img =
        Except.ok v ∧ v.original = img) := by
  by_cases hz : img.h * img.w = 0
  · constructor
    · refine ⟨fun _ => hz, fun _ => ?_⟩
      by_cases h3 : img.channels = 3
      · simp [preprocess_image, h3, hcvt.1 img hz]
      · simp [preprocess_image, h3, hblur.1 img hz]
    · exact fun hn => absurd hz hn
  · have hgray : ∃ g, (if img.channels = 3 then cvtColor img else Except.ok img) =
        Except.ok g ∧ g.h = img.h ∧ g.w = img.w := by
      by_cases h3 : img.channels = 3
      · obtain ⟨g, hg, hgh, hgw⟩ := hcvt.2 img hz
        exact ⟨g, by simp [h3, hg], hgh, hgw⟩
      · exact ⟨img, by simp [h3], rfl, rfl⟩
    obtain ⟨g, hg, hgh, hgw⟩ := hgray
    have hgz : g.h * g.w ≠ 0 := by rw [hgh, hgw]; exact hz
    obtain ⟨b, hb, hbh, hbw⟩ := hblur.2 g hgz
    have hbz : b.h * b.w ≠ 0 := by rw [hbh, hbw]; exact hgz
    obtain ⟨t, ht, hth, htw⟩ := hthr.2 b hbz
    have htz : t.h * t.w ≠ 0 := by rw [hth, htw]; exact hbz
    obtain ⟨e, he, heh, hew⟩ := hcan.2 t htz
    have hez : e.h * e.w ≠ 0 := by rw [heh, hew]; exact htz
    obtain ⟨d, hd, _, _⟩ := hdil.2 e hez
    have hok : preprocess_image cvtColor gaussianBlur adaptiveThreshold canny dilate img =
        Except.ok ⟨g, d, img⟩ := by
      simp [preprocess_image, hg, hb, ht, he, hd]
    exact ⟨by simp [hok, hz], fun _ => ⟨⟨g, d, img⟩, hok, rfl⟩⟩

/-- A concrete primitive satisfying the OpenCV contract, used to witness
the preprocessor theorem. -/
def cvOpModel (i : Image) : Except CvError Image :=
  if i.h * i.w = 0 then Except.error CvError.invalidImage
  else Except.ok ⟨i.h, i.w, 1, i.pix⟩

theorem cvOpModel_primitive : CvPrimitive cvOpModel := by
  constructor
  · intro i hi
    simp [cvOpModel, hi]
  · intro i hi
    exact ⟨⟨i.h, i.w, 1, i.pix⟩, by simp [cvOpModel, hi], rfl, rfl⟩

/-- A 2x2 3-channel image and an empty 3-channel image. -/
def imgSmall : Image := ⟨2, 2, 3, fun _ _ _ => 0⟩

def imgEmpty : Image := ⟨0, 5, 3, fun _ _ _ => 0⟩

/-- C5 (witness): with the model primitives, preprocessing the 2x2 image
succeeds and preprocessing the zero-area image fails with
`InvalidImage`. -/
theorem preprocess_zero_area_witness :
    (preprocess_image cvOpModel cvOpModel cvOpModel cvOpModel cvOpModel imgSmall =
        Except.error CvError.invalidImage ↔ imgSmall.h * imgSmall.w = 0) ∧
    (preprocess_image cvOpModel cvOpModel cvOpModel cvOpModel cvOpModel imgEmpty =
        Except.error CvError.invalidImage ↔ imgEmpty.h * imgEmpty.w = 0) ∧
    preprocess_image cvOpModel cvOpModel cvOpModel cvOpModel cvOpModel imgEmpty =
      Except.error CvError.invalidImage := by
  have h1 := preprocess_zero_area cvOpModel cvOpModel cvOpModel cvOpModel cvOpModel
    cvOpModel_primitive cvOpModel_primitive cvOpModel_primitive cvOpModel_primitive
    cvOpModel_primitive imgSmall (Or.inr rfl)
  have h2 := preprocess_zero_area cvOpModel cvOpModel cvOpModel cvOpModel cvOpModel
    cvOpModel_primitive cvOpModel_primitive cvOpModel_primitive cvOpModel_primitive
    cvOpModel_primitive imgEmpty (Or.inr rfl)
  exact ⟨h1.1, h2.1, h2.1.mpr rfl⟩

end StockSight
